import Mathlib

/-!
Shallow embedding of the rustlox bytecode interpreter (scanner, compiler
helpers, chunk, VM) together with theorems checking the specification's
claims against the code.

Modelling conventions:
* Rust `Vec<T>` becomes `List T`; `push` appends at the end, so the top of
  the VM value stack is the last list element and absolute stack indices
  match the Rust ones.
* Lox numbers are `f64` in the source; they are modelled by `Int` here.
  None of the verified claims exercises floating-point arithmetic or
  float-specific equality: every path at issue is decided by the match
  structure of the Rust code, not by numeric rounding.
* Native functions store a raw function pointer in the source
  (`NativeFunction(pub fn(&[Value]) -> Value)`).  A function field would be
  a negative occurrence inside `Value`, so natives are represented by an
  identifier (`NativeId`; the program registers exactly one native,
  `clock`) and VM operations that may invoke a native take an
  interpretation `impl : NativeId → List Value → Value` as an argument.
  `clock` reads the system time, which has no pure model anyway.
* Operations that would panic in Rust (index out of bounds, `unwrap` on
  `None`, the `panic!("Impossible")` arms) return `none` in an `Option`
  result.
* `runtime_error` prints a message, prints a stack trace and clears the
  value stack.  It is modelled by returning the message as an
  `Option String` component and clearing the `stack` field; the printed
  trace itself is not modelled.
-/

namespace Lox

/-- Identifier of a registered native function.  `VM::new` registers exactly
one native, `clock` (src/vm.rs line 53). -/
inductive NativeId where
  | clock
deriving DecidableEq

/-- Mirrors `enum InterpretResult` in src/vm.rs lines 10-14. -/
inductive InterpretResult where
  | ok
  | compileError
  | runtimeError
deriving DecidableEq

/-- Mirrors `enum OpCode` in src/chunk.rs lines 6-41, in declaration order. -/
inductive OpCode where
  | ret
  | constant
  | negate
  | add
  | substract
  | multiply
  | divide
  | opNil
  | opTrue
  | opFalse
  | opNot
  | equal
  | greater
  | less
  | print
  | pop
  | defineGlobal
  | getGlobal
  | setGlobal
  | getLocal
  | setLocal
  | jumpIfFalse
  | jump
  | loop
  | call
  | closure
  | setUpvalue
  | getUpvalue
  | closedUpvalue
deriving DecidableEq

/-- Mirrors `enum TokenType` in src/scanner.rs lines 1-47. -/
inductive TokenType where
  | leftParen
  | rightParen
  | leftBrace
  | rightBrace
  | comma
  | dot
  | minus
  | plus
  | semicolon
  | slash
  | star
  | bang
  | bangEqual
  | equalSign
  | equalEqual
  | greater
  | greaterEqual
  | less
  | lessEqual
  | identifier
  | stringTok
  | number
  | kAnd
  | kClass
  | kElse
  | kFalse
  | kFun
  | kFor
  | kIf
  | kNil
  | kOr
  | kPrint
  | kReturn
  | kSuper
  | kThis
  | kTrue
  | kVar
  | kWhile
  | eof
  | error
deriving DecidableEq

/-- Mirrors `struct Token` in src/scanner.rs lines 49-54. -/
structure Token where
  tokenType : TokenType
  lexeme : String
  line : Nat
deriving DecidableEq

mutual

/-- Mirrors `enum Value` in src/value.rs lines 40-50.  `Func` and `Closure`
hold `Rc` pointers in the source; the `Rc` indirection is dropped. -/
inductive Value where
  | bool : Bool → Value
  | nil : Value
  | number : Int → Value
  | string : String → Value
  | func : Function → Value
  | nativeFunc : NativeId → Value
  | closure : Closure → Value

/-- Mirrors `struct Function { name, arity, chunk }` in src/value.rs
lines 3-9. -/
inductive Function where
  | mk : String → Nat → Chunk → Function

/-- Mirrors `struct Chunk { code, constants, lines }` in src/chunk.rs
lines 87-92.  The `ValueArray` wrapper around `constants.values` is
inlined as a plain list; bytes of `code` are `Nat`s below 256. -/
inductive Chunk where
  | mk : List Nat → List Value → List Nat → Chunk

/-- Mirrors `struct Closure { function, obj }` in src/value.rs
lines 11-15.  The `obj` field is written by `Closure::new` and never
read anywhere in the source. -/
inductive Closure where
  | mk : Function → Option Value → Closure

end

/-- Projection for `Function.name`. -/
def Function.name : Function → String
  | .mk n _ _ => n

/-- Projection for `Function.arity`. -/
def Function.arity : Function → Nat
  | .mk _ a _ => a

/-- Projection for `Function.chunk`. -/
def Function.chunk : Function → Chunk
  | .mk _ _ c => c

/-- Projection for `Chunk.code`. -/
def Chunk.code : Chunk → List Nat
  | .mk c _ _ => c

/-- Projection for `Chunk.constants` (the `constants.values` vector). -/
def Chunk.constants : Chunk → List Value
  | .mk _ k _ => k

/-- Projection for `Chunk.lines`. -/
def Chunk.lines : Chunk → List Nat
  | .mk _ _ l => l

/-- Projection for `Closure.function`. -/
def Closure.function : Closure → Function
  | .mk f _ => f

/-- Projection for the dead `Closure.obj` field. -/
def Closure.obj : Closure → Option Value
  | .mk _ o => o

/-- The `Chunk::default()` used by `CompilerState::default` and
`Function::default`: three empty vectors. -/
def emptyChunk : Chunk := .mk [] [] []

/-- Mirrors `Chunk::write` (src/chunk.rs lines 95-101): pushes one byte to
`code` and one line entry to `lines`. -/
def Chunk.write (c : Chunk) (byte line : Nat) : Chunk :=
  .mk (c.code ++ [byte]) c.constants (c.lines ++ [line])

/-- Mirrors `Chunk::add_constant` (src/chunk.rs lines 103-106): pushes the
value and returns the new chunk together with the index
(`values.len() - 1`). -/
def Chunk.addConstant (c : Chunk) (v : Value) : Chunk × Nat :=
  (.mk c.code (c.constants ++ [v]) c.lines, c.constants.length)

/-- Mirrors `Compiler::patch_jump` (src/compiler.rs lines 528-535): the
computed 16-bit jump is written in place over the two placeholder bytes at
`offset` and `offset + 1`, and an error is reported (second component)
when the jump does not fit in a `u16`; the bytes are written either way. -/
def Chunk.patchJump (c : Chunk) (offset : Nat) : Chunk × Bool :=
  let jump := c.code.length - offset - 2
  let err := decide (jump > 65535)
  let code1 := c.code.set offset ((jump >>> 8) % 256)
  let code2 := code1.set (offset + 1) (jump % 256)
  (.mk code2 c.constants c.lines, err)

/-- Mirrors `struct CallFrame { closure, ip, slots }` in src/vm.rs
lines 16-22; `slots` is the start position of this frame in the VM's
value stack. -/
structure CallFrame where
  closure : Closure
  ip : Nat
  slots : Nat

/-- The mutable fields of `struct VM` (src/vm.rs lines 38-44).  The
`HashMap<String, Value>` of globals is modelled by an association list
with `HashMap::insert` semantics (`globalsInsert`). -/
structure VMState where
  frames : List CallFrame
  stack : List Value
  globals : List (String × Value)

/-- `HashMap::insert`: replace the binding of `k` if present, otherwise
append it. -/
def globalsInsert (g : List (String × Value)) (k : String) (v : Value) :
    List (String × Value) :=
  match g with
  | [] => [(k, v)]
  | (k', v') :: rest =>
      if k' = k then (k, v) :: rest else (k', v') :: globalsInsert rest k v

/-- `HashMap::get`: the value bound to `k`, if any. -/
def globalsGet (g : List (String × Value)) (k : String) : Option Value :=
  match g with
  | [] => none
  | (k', v') :: rest => if k' = k then some v' else globalsGet rest k

/-- The globals created by `VM::new` (src/vm.rs lines 47-55): only the
native `clock` is pre-registered via `define_native`. -/
def initialGlobals : List (String × Value) := [("clock", .nativeFunc .clock)]

/-- The root frame pushed by `VM::interpret` (src/vm.rs lines 65-69): the
script function is wrapped in a capture-free closure and the frame gets
`ip = 0` and `slots = 0`; note that the closure itself is NOT pushed onto
the value stack. -/
def initialFrame (f : Function) : CallFrame :=
  ⟨Closure.mk f none, 0, 0⟩

/-- Mirrors `VM::values_equal` (src/vm.rs lines 158-166), arms in source
order; note the `(Value::Nil, _) => true` arm. -/
def valuesEqual (a b : Value) : Bool :=
  match a, b with
  | .bool x, .bool y => x == y
  | .nil, _ => true
  | .number x, .number y => x == y
  | .string s1, .string s2 => s1 == s2
  | _, _ => false

/-- Mirrors `VM::is_falsey` (src/vm.rs lines 154-156). -/
def isFalsey (v : Value) : Bool :=
  match v with
  | .nil => true
  | .bool false => true
  | _ => false

/-- Mirrors `VM::binary_operator` (src/vm.rs lines 98-126).  Returns the
state after the operation, the `InterpretResult` the function returns,
and the message passed to `runtime_error` if any (`runtime_error` clears
the value stack).  `none` overall models the `panic!("Impossible")` arm
for an operator character outside the six used ones.  Both pops happen
before the pattern is tested, so when the stack holds fewer than two
values the popped elements stay removed and `RuntimeError` is returned
without a message (the `else` branch of the `if let`). -/
def binaryOperator (op : Char) (s : VMState) :
    Option (VMState × InterpretResult × Option String) :=
  let b? := s.stack.getLast?
  let s1 : VMState := { s with stack := s.stack.dropLast }
  let a? := s1.stack.getLast?
  let s2 : VMState := { s1 with stack := s1.stack.dropLast }
  match b?, a? with
  | some b, some a =>
      match a, b with
      | .number x, .number y =>
          match op with
          | '+' => some ({ s2 with stack := s2.stack ++ [.number (x + y)] }, .ok, none)
          | '-' => some ({ s2 with stack := s2.stack ++ [.number (x - y)] }, .ok, none)
          | '*' => some ({ s2 with stack := s2.stack ++ [.number (x * y)] }, .ok, none)
          | '/' => some ({ s2 with stack := s2.stack ++ [.number (x / y)] }, .ok, none)
          | '>' => some ({ s2 with stack := s2.stack ++ [.bool (decide (x > y))] }, .ok, none)
          | '<' => some ({ s2 with stack := s2.stack ++ [.bool (decide (x < y))] }, .ok, none)
          | _ => none
      | .string x, .string y =>
          some ({ s2 with stack := s2.stack ++ [.string (x ++ y)] }, .ok, none)
      | _, _ =>
          some ({ s2 with stack := [] }, .runtimeError,
            some "Operands must be numbers.")
  | _, _ => some (s2, .runtimeError, none)

/-- The `OpCode::Add` arm of `VM::run` (src/vm.rs lines 262-264): it calls
`binary_operator('+')` and DISCARDS the returned `InterpretResult`, so the
`run` loop always continues afterwards.  The second component is what
`run` returns at this instruction: `none` means the loop keeps executing.
The third component is the `runtime_error` message, if one was printed. -/
def execAdd (s : VMState) :
    Option (VMState × Option InterpretResult × Option String) :=
  match binaryOperator '+' s with
  | none => none
  | some (s', _discarded, msg) => some (s', none, msg)

/-- The `OpCode::Equal` arm of `VM::run` (src/vm.rs lines 282-286): pop
`b` then `a` and push `Bool(values_equal(a, b))`; when fewer than two
values are on the stack the pops still happen and nothing is pushed. -/
def execEqual (s : VMState) : VMState :=
  let b? := s.stack.getLast?
  let s1 : VMState := { s with stack := s.stack.dropLast }
  let a? := s1.stack.getLast?
  let s2 : VMState := { s1 with stack := s1.stack.dropLast }
  match b?, a? with
  | some b, some a => { s2 with stack := s2.stack ++ [.bool (valuesEqual a b)] }
  | _, _ => s2

/-- The `OpCode::DefineGlobal` arm of `VM::run` (src/vm.rs lines 301-309),
with the name already fetched from the constant table by `read_constant`.
If the constant is a `String` the top of the stack is popped (`unwrap`,
hence `none` on an empty stack) and unconditionally inserted into the
globals map; for a non-`String` constant the arm silently does nothing. -/
def execDefineGlobal (s : VMState) (name : Value) : Option VMState :=
  match name with
  | .string str =>
      match s.stack.getLast? with
      | none => none
      | some val =>
          some { s with
            stack := s.stack.dropLast,
            globals := globalsInsert s.globals str val }
  | _ => some s

/-- The `OpCode::Closure` arm of `VM::run` (src/vm.rs lines 380-384), with
the constant already fetched by `read_constant`: a non-`Func` constant is
the `panic!("Impossible")` path, otherwise `Closure::new(func, None)` is
pushed — no upvalue is ever captured. -/
def execClosure (s : VMState) (c : Value) : Option VMState :=
  match c with
  | .func f => some { s with stack := s.stack ++ [.closure (Closure.mk f none)] }
  | _ => none

/-- Mirrors `VM::call` (src/vm.rs lines 169-185).  On an arity mismatch
`runtime_error` is invoked (message returned, stack cleared) and the call
fails; otherwise a new `CallFrame` with `ip = 0` and
`slots = stack.len() - arg_cnt` is pushed.  There is no check on the
number of frames anywhere in the function. -/
def VM.call (s : VMState) (c : Closure) (argCnt : Nat) :
    Bool × VMState × Option String :=
  if argCnt ≠ c.function.arity then
    (false, { s with stack := [] },
      some ("Expected " ++ toString c.function.arity ++
        " arguments but got " ++ toString argCnt ++ "."))
  else
    (true,
      { s with frames := s.frames ++ [⟨c, 0, s.stack.length - argCnt⟩] },
      none)

/-- Mirrors `VM::call_value` (src/vm.rs lines 187-205).  The callee is read
at index `stack.len() - 1 - arg_cnt`; an out-of-range access (Rust panic,
including the `usize` underflow when `arg_cnt ≥ stack.len()`) is `none`.
A `NativeFunc` is applied to the top `arg_cnt` stack values with NO arity
check, the stack is truncated to drop callee and arguments, and the
result is pushed.  A `Closure` goes through `VM::call`.  Anything else is
the runtime error `"Can only call functions and classes."`. -/
def callValue (impl : NativeId → List Value → Value) (s : VMState)
    (argCnt : Nat) : Option (Bool × VMState × Option String) :=
  if s.stack.length < argCnt + 1 then none
  else
    match s.stack.get? (s.stack.length - 1 - argCnt) with
    | none => none
    | some callee =>
        match callee with
        | .nativeFunc id =>
            let argStart := s.stack.length - argCnt
            let result := impl id (s.stack.drop argStart)
            some (true,
              { s with stack := s.stack.take (argStart - 1) ++ [result] },
              none)
        | .closure c => some (VM.call s c argCnt)
        | _ =>
            some (false, { s with stack := [] },
              some "Can only call functions and classes.")

/-- Mirrors `struct Scanner` in src/scanner.rs lines 56-63: the source as a
vector of chars, the start of the current lexeme, the cursor, and the
current line (starting at 1). -/
structure ScannerState where
  source : List Char
  start : Nat
  current : Nat
  line : Nat

/-- `Scanner::new` followed by `Scanner::init_scanner` (src/scanner.rs
lines 66-76). -/
def initScanner (text : String) : ScannerState :=
  ⟨text.data, 0, 0, 1⟩

/-- Mirrors `Scanner::is_at_end` (src/scanner.rs lines 94-96). -/
def ScannerState.isAtEnd (s : ScannerState) : Bool :=
  s.current == s.source.length

/-- Mirrors `Scanner::peek` (src/scanner.rs lines 115-121): the NUL char
stands in for end of input. -/
def ScannerState.peek (s : ScannerState) : Char :=
  if s.isAtEnd then Char.ofNat 0 else s.source.getD s.current (Char.ofNat 0)

/-- Mirrors `Scanner::peek_next` (src/scanner.rs lines 123-130). -/
def ScannerState.peekNext (s : ScannerState) : Option Char :=
  if s.current + 1 ≥ s.source.length then none
  else some (s.source.getD (s.current + 1) (Char.ofNat 0))

/-- Mirrors `Scanner::advance` (src/scanner.rs lines 98-101): returns the
char under the cursor and moves the cursor one to the right. -/
def ScannerState.advance (s : ScannerState) : Char × ScannerState :=
  (s.source.getD s.current (Char.ofNat 0), { s with current := s.current + 1 })

/-- Mirrors `Scanner::my_match` (src/scanner.rs lines 103-113): consume the
next char only when it equals `expected`. -/
def ScannerState.myMatch (s : ScannerState) (expected : Char) :
    Bool × ScannerState :=
  if s.isAtEnd then (false, s)
  else if s.source.getD s.current (Char.ofNat 0) ≠ expected then (false, s)
  else (true, { s with current := s.current + 1 })

/-- The inner `while` of the comment arm of `Scanner::skip_whitespace`
(src/scanner.rs lines 142-144): advance while the next char is not a
newline and the end is not reached.  Fuel-driven; `source.length + 1`
fuel always suffices since every step advances the cursor. -/
def skipCommentBody : Nat → ScannerState → ScannerState
  | 0, s => s
  | fuel + 1, s =>
      if s.peek ≠ '\n' ∧ ¬s.isAtEnd then
        skipCommentBody fuel (s.advance).2
      else s

/-- Mirrors the loop of `Scanner::skip_whitespace` (src/scanner.rs
lines 132-154).  The `'/'` arm returns UNCONDITIONALLY after (possibly)
skipping a comment body, so a line comment's terminating newline is left
unconsumed.  Fuel-driven as above. -/
def skipWhitespaceF : Nat → ScannerState → ScannerState
  | 0, s => s
  | fuel + 1, s =>
      match s.peek with
      | '\n' => skipWhitespaceF fuel ({ s with line := s.line + 1 }.advance).2
      | '/' =>
          match s.peekNext with
          | some '/' => skipCommentBody (s.source.length + 1) s
          | _ => s
      | ' ' => skipWhitespaceF fuel (s.advance).2
      | '\r' => skipWhitespaceF fuel (s.advance).2
      | '\t' => skipWhitespaceF fuel (s.advance).2
      | _ => s

/-- `Scanner::skip_whitespace` with enough fuel for the whole source. -/
def skipWhitespace (s : ScannerState) : ScannerState :=
  skipWhitespaceF (s.source.length + 1) s

/-- Mirrors `Scanner::make_token` (src/scanner.rs lines 78-84): the lexeme
is the slice `source[start..current]`. -/
def ScannerState.makeToken (s : ScannerState) (tt : TokenType) : Token :=
  ⟨tt, String.mk ((s.source.drop s.start).take (s.current - s.start)), s.line⟩

/-- Mirrors `Scanner::error_token` (src/scanner.rs lines 86-92). -/
def ScannerState.errorToken (s : ScannerState) (msg : String) : Token :=
  ⟨.error, msg, s.line⟩

/-- Mirrors the loop of `Scanner::make_string` (src/scanner.rs
lines 157-162), fuel-driven. -/
def stringBody : Nat → ScannerState → ScannerState
  | 0, s => s
  | fuel + 1, s =>
      if s.peek ≠ '"' ∧ ¬s.isAtEnd then
        if s.peek = '\n' then stringBody fuel ({ s with line := s.line + 1 }.advance).2
        else stringBody fuel (s.advance).2
      else s

/-- Mirrors `Scanner::make_string` (src/scanner.rs lines 156-170). -/
def makeString (s : ScannerState) : Token × ScannerState :=
  let s := stringBody (s.source.length + 1) s
  if s.isAtEnd then (s.errorToken "Unterminated string.", s)
  else
    let s := (s.advance).2
    (s.makeToken .stringTok, s)

/-- A run of `while self.peek().is_ascii_digit() { self.advance(); }`,
fuel-driven. -/
def digitsBody : Nat → ScannerState → ScannerState
  | 0, s => s
  | fuel + 1, s =>
      if s.peek.isDigit then digitsBody fuel (s.advance).2 else s

/-- Mirrors `Scanner::make_number` (src/scanner.rs lines 172-187). -/
def makeNumber (s : ScannerState) : Token × ScannerState :=
  let s := digitsBody (s.source.length + 1) s
  let s :=
    match s.peek, s.peekNext with
    | '.', some ch2 =>
        if ch2.isDigit then
          digitsBody (s.source.length + 1) ((s.advance).2)
        else s
    | _, _ => s
  (s.makeToken .number, s)

/-- Mirrors `Scanner::check_keyword` (src/scanner.rs lines 189-206). -/
def checkKeyword (s : ScannerState) (start length : Nat) (rest : String)
    (tt : TokenType) : TokenType :=
  if s.current - s.start == start + length ∧
      String.mk ((s.source.drop (s.start + start)).take
        (s.current - (s.start + start))) == rest then
    tt
  else .identifier

/-- Mirrors `Scanner::identifier_type` (src/scanner.rs lines 209-235). -/
def identifierType (s : ScannerState) : TokenType :=
  match s.source.getD s.start (Char.ofNat 0) with
  | 'a' => checkKeyword s 1 2 "nd" .kAnd
  | 'c' => checkKeyword s 1 4 "lass" .kClass
  | 'e' => checkKeyword s 1 3 "lse" .kElse
  | 'i' => checkKeyword s 1 1 "f" .kIf
  | 'f' =>
      if s.current - s.start > 1 then
        match s.source.getD (s.start + 1) (Char.ofNat 0) with
        | 'a' => checkKeyword s 2 3 "lse" .kFalse
        | 'o' => checkKeyword s 2 1 "r" .kFor
        | 'u' => checkKeyword s 2 1 "n" .kFun
        | _ => .identifier
      else .identifier
  | 'n' => checkKeyword s 1 2 "il" .kNil
  | 'o' => checkKeyword s 1 1 "r" .kOr
  | 'p' => checkKeyword s 1 4 "rint" .kPrint
  | 'r' => checkKeyword s 1 5 "eturn" .kReturn
  | 's' => checkKeyword s 1 4 "uper" .kSuper
  | 't' =>
      if s.current - s.start > 1 then
        match s.source.getD (s.start + 1) (Char.ofNat 0) with
        | 'h' => checkKeyword s 2 2 "is" .kThis
        | 'r' => checkKeyword s 2 2 "ue" .kTrue
        | _ => .identifier
      else .identifier
  | 'v' => checkKeyword s 1 2 "ar" .kVar
  | 'w' => checkKeyword s 1 4 "hile" .kWhile
  | _ => .identifier

/-- The loop of `Scanner::make_identifier` (src/scanner.rs lines 238-243),
fuel-driven. -/
def identifierBody : Nat → ScannerState → ScannerState
  | 0, s => s
  | fuel + 1, s =>
      if s.peek = '_' ∨ s.peek.isAlpha ∨ s.peek.isDigit then
        identifierBody fuel (s.advance).2
      else s

/-- Mirrors `Scanner::make_identifier` (src/scanner.rs lines 237-245). -/
def makeIdentifier (s : ScannerState) : Token × ScannerState :=
  let s := identifierBody (s.source.length + 1) s
  (s.makeToken (identifierType s), s)

/-- Mirrors `Scanner::scan_token` (src/scanner.rs lines 248-281).  Note the
default arm: any char with no arm of its own (a `'\n'` left behind by the
comment case of `skip_whitespace` included) becomes the error token
`"Unexpcted character."` (sic). -/
def scanToken (s0 : ScannerState) : Token × ScannerState :=
  let s1 := skipWhitespace s0
  let s := { s1 with start := s1.current }
  if s.isAtEnd then (s.makeToken .eof, s)
  else
    let (c, s) := s.advance
    match c with
    | '(' => (s.makeToken .leftParen, s)
    | ')' => (s.makeToken .rightParen, s)
    | '{' => (s.makeToken .leftBrace, s)
    | '}' => (s.makeToken .rightBrace, s)
    | ';' => (s.makeToken .semicolon, s)
    | ',' => (s.makeToken .comma, s)
    | '.' => (s.makeToken .dot, s)
    | '-' => (s.makeToken .minus, s)
    | '+' => (s.makeToken .plus, s)
    | '/' => (s.makeToken .slash, s)
    | '*' => (s.makeToken .star, s)
    | '!' =>
        let (m, s) := s.myMatch '='
        if m then (s.makeToken .bangEqual, s) else (s.makeToken .bang, s)
    | '=' =>
        let (m, s) := s.myMatch '='
        if m then (s.makeToken .equalEqual, s) else (s.makeToken .equalSign, s)
    | '<' =>
        let (m, s) := s.myMatch '='
        if m then (s.makeToken .lessEqual, s) else (s.makeToken .less, s)
    | '>' =>
        let (m, s) := s.myMatch '='
        if m then (s.makeToken .greaterEqual, s) else (s.makeToken .greater, s)
    | '"' => makeString s
    | ch =>
        if ch.isDigit then makeNumber s
        else if ch.isAlpha ∨ ch = '_' then makeIdentifier s
        else (s.errorToken "Unexpcted character.", s)

/-- Mirrors `struct Local { name, depth }` in src/compiler.rs
lines 140-145; `depth = -1` is the "declared but uninitialized"
sentinel. -/
structure Local where
  name : Token
  depth : Int

/-- Mirrors `Compiler::resolve_local` (src/compiler.rs lines 842-858).
The Rust loop runs over `locals.iter().enumerate().rev()` WITHOUT
breaking: every match with `depth == -1` sets the error flag (first
component, the `"Can't read local variable in its own initializer."`
report), and every initialized match overwrites `local_index`, so the
final value comes from the last iteration that matched — the OUTERMOST
matching local. -/
def resolveLocal (locals : List Local) (tok : Token) : Bool × Option Nat :=
  (locals.enum.reverse).foldl
    (fun acc p =>
      if p.2.name.lexeme == tok.lexeme then
        if p.2.depth == -1 then (true, acc.2) else (acc.1, some p.1)
      else acc)
    (false, none)

/-- Mirrors `Compiler::make_constant` (src/compiler.rs lines 673-680):
add the value, then report `"Too many constants in one chunk."` and
return index 0 when the index does not fit in a `u8`. -/
def makeConstant (c : Chunk) (v : Value) : Chunk × Nat × Bool :=
  let (c', idx) := c.addConstant v
  if idx > 255 then (c', 0, true) else (c', idx, false)

/-- Mirrors `Compiler::identifier_constant` (src/compiler.rs
lines 682-684): the token's lexeme is interned as a string constant. -/
def identifierConstant (c : Chunk) (name : Token) : Chunk × Nat × Bool :=
  makeConstant c (.string name.lexeme)

/-- The variable-resolution half of `Compiler::named_variable`
(src/compiler.rs lines 860-871): pick `GetLocal`/`SetLocal` with the slot
from `resolve_local` when it finds the name, otherwise intern the name
and pick `GetGlobal`/`SetGlobal`.  Returns (get op, set op, operand,
updated chunk, error flag). -/
def namedVariableResolve (locals : List Local) (c : Chunk) (tok : Token) :
    OpCode × OpCode × Nat × Chunk × Bool :=
  match resolveLocal locals tok with
  | (err, some idx) => (.getLocal, .setLocal, idx, c, err)
  | (err, none) =>
      let (c', idx, err2) := identifierConstant c tok
      (.getGlobal, .setGlobal, idx, c', err || err2)

/-- The duplicate-name loop of `Compiler::declare_variable`
(src/compiler.rs lines 720-731), walking the locals innermost-first:
stop without error at the first local of an enclosing (shallower) scope,
report a duplicate at the first same-name local of the current scope. -/
def dupInScope (scopeDepth : Int) (name : String) : List Local → Bool
  | [] => false
  | l :: rest =>
      if l.depth < scopeDepth then false
      else if l.name.lexeme == name then true
      else dupInScope scopeDepth name rest

/-- Mirrors `Compiler::declare_variable` (src/compiler.rs lines 713-737)
followed by its call to `add_local` (lines 704-711).  Returns (error
reported?, updated locals).  In GLOBAL scope (`scope_depth == 0`) the
function returns immediately: no duplicate check, no local added, no
error.  Otherwise a same-name local in the same scope is an error
(`"Already a variable with this name in this scope."`), `add_local`
errors when 255 locals already exist, and otherwise pushes the local with
the uninitialized depth `-1`. -/
def declareVariable (scopeDepth : Int) (locals : List Local) (name : Token) :
    Bool × List Local :=
  if scopeDepth == 0 then (false, locals)
  else
    let dup := dupInScope scopeDepth name.lexeme locals.reverse
    let lenErr := locals.length == 255
    let locals' := if lenErr then locals else locals ++ [⟨name, -1⟩]
    (dup || lenErr, locals')

/-- One mutation of a `Chunk` during compilation.  Auditing
src/compiler.rs and src/chunk.rs, these are the only operations that ever
touch a chunk's `code`, `lines` or `constants`: `Chunk::write` (via
`emit_byte`, hence also `emit_bytes`, `emit_constant`, `emit_return`,
`emit_jump` and `emit_loop`), the two in-place byte stores of
`patch_jump`, and `Chunk::add_constant` (via `make_constant`). -/
inductive ChunkOp where
  | write (byte line : Nat)
  | patch (offset : Nat)
  | addConst (v : Value)

/-- Applies one `ChunkOp`. -/
def applyChunkOp (c : Chunk) : ChunkOp → Chunk
  | .write b l => c.write b l
  | .patch o => (c.patchJump o).1
  | .addConst v => (c.addConstant v).1

/-- Applies a compilation history of chunk mutations in order. -/
def applyChunkOps (c : Chunk) (ops : List ChunkOp) : Chunk :=
  ops.foldl applyChunkOp c

/-- The `OpCode::GetGlobal` arm of `VM::run` (src/vm.rs lines 310-323),
with the name already fetched by `read_constant`: push the bound value,
or report `runtime_error` (message returned, stack cleared) and make
`run` return `RuntimeError` when the name is unbound.  The middle
component is what `run` returns at this instruction (`none` = the loop
continues). -/
def execGetGlobal (s : VMState) (name : Value) :
    VMState × Option InterpretResult × Option String :=
  match name with
  | .string str =>
      match globalsGet s.globals str with
      | some v => ({ s with stack := s.stack ++ [v] }, none, none)
      | none =>
          ({ s with stack := [] }, some .runtimeError,
            some ("Undefined variable " ++ "\x27" ++ str ++ "\x27"))
  | _ => (s, none, none)

/-- Helper: every single chunk mutation preserves
`code.length = lines.length`. -/
theorem applyChunkOp_length_eq (c : Chunk) (op : ChunkOp)
    (h : c.code.length = c.lines.length) :
    (applyChunkOp c op).code.length = (applyChunkOp c op).lines.length := by
  obtain ⟨code, consts, lines⟩ := c
  simp only [Chunk.code, Chunk.lines] at h
  cases op with
  | write b l =>
      simp [applyChunkOp, Chunk.write, Chunk.code, Chunk.lines, h]
  | patch o =>
      simp [applyChunkOp, Chunk.patchJump, Chunk.code, Chunk.lines, h]
  | addConst v =>
      simp [applyChunkOp, Chunk.addConstant, Chunk.code, Chunk.lines, h]

/-- Helper: `HashMap::insert` followed by lookup of the same key yields
the inserted value. -/
theorem globalsGet_insert (g : List (String × Value)) (k : String)
    (v : Value) : globalsGet (globalsInsert g k v) k = some v := by
  induction g with
  | nil => simp [globalsInsert, globalsGet]
  | cons p rest ih =>
      obtain ⟨k', v'⟩ := p
      by_cases h : k' = k
      · simp [globalsInsert, globalsGet, h]
      · simp [globalsInsert, globalsGet, h, ih]

/-- C1: the claim demands `Nil == non-Nil → false`, but `values_equal`
(src/vm.rs line 161) has the arm `(Value::Nil, _) => true`, so executing
`Equal` on operands `Nil` and `Number(1)` pushes `Bool(true)`. -/
theorem c1_equal_nil_number_pushes_true :
    valuesEqual .nil (.number 1) = true ∧
    execEqual ⟨[], [.nil, .number 1], []⟩ = ⟨[], [.bool true], []⟩ :=
  ⟨rfl, rfl⟩

/-- C2: the code has no upvalue machinery, so the claimed counter program
cannot work.  When the body of the inner function `inc` is compiled its
compiler state has an empty locals list, so the reference to `n` falls
through `resolve_local` and is compiled as a GLOBAL access; the
`OpCode::Closure` arm always builds `Closure::new(func, None)`, capturing
nothing; and executing `GetGlobal "n"` against the interpreter's globals
(which never received an `n`) reports `Undefined variable 'n'` and makes
`run` return `RuntimeError` — instead of printing 1, 2, 3. -/
theorem c2_inner_function_resolves_n_as_global :
    resolveLocal [] ⟨.identifier, "n", 3⟩ = (false, none) ∧
    namedVariableResolve [] emptyChunk ⟨.identifier, "n", 3⟩ =
      (.getGlobal, .setGlobal, 0, Chunk.mk [] [.string "n"] [], false) ∧
    (∀ (s : VMState) (f : Function),
      execClosure s (.func f) =
        some { s with stack := s.stack ++ [.closure (Closure.mk f none)] }) ∧
    execGetGlobal ⟨[], [], initialGlobals⟩ (.string "n") =
      (⟨[], [], initialGlobals⟩, some .runtimeError,
        some ("Undefined variable " ++ "\x27" ++ "n" ++ "\x27")) :=
  ⟨rfl, rfl, fun _ _ => rfl, rfl⟩

/-- C3: on `Number + String` the code prints
`"Operands must be numbers."` — not the claimed
`"Operands must be two numbers or two strings."` — and the
`OpCode::Add` arm of `run` (src/vm.rs lines 262-264) discards the
`RuntimeError` returned by `binary_operator`, so the loop continues
executing on the cleared stack (the middle `none` below) instead of
returning `RuntimeError`. -/
theorem c3_add_number_string_message_and_continue :
    execAdd ⟨[], [.number 1, .string "x"], []⟩ =
      some (⟨[], [], []⟩, none, some "Operands must be numbers.") ∧
    "Operands must be numbers." ≠
      "Operands must be two numbers or two strings." :=
  ⟨rfl, by decide⟩

/-- A closure of arity 1 used in the concrete `Call` scenarios. -/
def c4Closure : Closure := Closure.mk (Function.mk "f" 1 emptyChunk) none

/-- A VM state about to execute `Call` with one argument: the callee
closure sits at stack index 0 and the argument at index 1. -/
def c4State : VMState := ⟨[], [.closure c4Closure, .number 42], []⟩

/-- C4 counterexample: calling `c4Closure` with one argument pushes a
frame whose slot base is 1 — the index of the FIRST ARGUMENT, not of the
callee (index 0) — so stack slot 0 of the frame holds `Number(42)`, not
the called closure. -/
theorem c4_counterexample :
    callValue (fun _ _ => Value.nil) c4State 1 =
      some (true, { c4State with frames := [⟨c4Closure, 0, 1⟩] }, none) ∧
    c4State.stack.get? (1 + 0) = some (.number 42) ∧
    Value.number 42 ≠ Value.closure c4Closure :=
  ⟨rfl, rfl, fun h => Value.noConfusion h⟩

/-- C4 amended: for every successful `Call` of a `Closure` with `argc`
arguments the new frame's slot base is `stack.len() - argc`, the index of
the first argument; the callee sits just below the base, at index
`slot_base - 1 = stack.len() - 1 - argc`, and is NOT part of the frame's
slots (parameters occupy frame slots `0..argc-1`); the root script frame
has slot base 0 (with no closure on the stack at all). -/
theorem c4_frame_base_is_first_argument
    (impl : NativeId → List Value → Value) (s : VMState) (c : Closure)
    (argCnt : Nat)
    (hlen : argCnt + 1 ≤ s.stack.length)
    (hget : s.stack.get? (s.stack.length - 1 - argCnt) =
      some (.closure c))
    (harity : argCnt = c.function.arity) :
    callValue impl s argCnt =
      some (true,
        { s with frames :=
            s.frames ++ [⟨c, 0, s.stack.length - argCnt⟩] },
        none) ∧
    s.stack.length - argCnt - 1 = s.stack.length - 1 - argCnt ∧
    (∀ f : Function, (initialFrame f).slots = 0) := by
  refine ⟨?_, by omega, fun _ => rfl⟩
  unfold callValue
  rw [if_neg (by omega), hget]
  show some (VM.call s c argCnt) = _
  unfold VM.call
  rw [if_neg (not_not_intro harity)]

/-- C4 witness: the amended statement at the concrete `c4State`. -/
theorem c4_frame_base_witness :
    1 + 1 ≤ 2 ∧
    callValue (fun _ _ => Value.nil) c4State 1 =
      some (true, { c4State with frames := [⟨c4Closure, 0, 1⟩] }, none) := by
  have h := c4_frame_base_is_first_argument (fun _ _ => Value.nil) c4State
    c4Closure 1 (by decide) rfl rfl
  exact ⟨by decide, h.1⟩

/-- A closure of arity 0 used in the frame-cap scenario. -/
def c5Closure : Closure := Closure.mk (Function.mk "f" 0 emptyChunk) none

/-- A VM state whose frame stack already holds 64 frames. -/
def c5State : VMState :=
  ⟨List.replicate 64 ⟨c5Closure, 0, 0⟩, [.closure c5Closure], []⟩

/-- C5 counterexample: with the frame stack at the claimed cap of 64,
`VM::call` still succeeds, pushes a 65th frame, and reports no
`"Stack overflow"` (no message at all): src/vm.rs lines 169-185 contain
no check of `frames.len()`. -/
theorem c5_counterexample :
    c5State.frames.length = 64 ∧
    VM.call c5State c5Closure 0 =
      (true,
        { c5State with frames := c5State.frames ++ [⟨c5Closure, 0, 1⟩] },
        none) ∧
    (VM.call c5State c5Closure 0).2.1.frames.length = 65 ∧
    (VM.call c5State c5Closure 0).2.2 = none := by
  refine ⟨by simp [c5State], rfl, ?_, rfl⟩
  simp [VM.call, c5State, c5Closure, Closure.function, Function.arity]

/-- C5 amended: the frame stack is NOT capped: whenever `argc` equals the
callee's arity, `VM::call` pushes a new frame regardless of how many
frames already exist, and never reports any runtime error, so recursion
depth is bounded only by host memory. -/
theorem c5_no_frame_cap (s : VMState) (c : Closure) (argCnt : Nat)
    (h : argCnt = c.function.arity) :
    VM.call s c argCnt =
      (true,
        { s with frames :=
            s.frames ++ [⟨c, 0, s.stack.length - argCnt⟩] },
        none) := by
  unfold VM.call
  rw [if_neg (not_not_intro h)]

/-- C5 witness: the amended statement at the concrete 64-frame state. -/
theorem c5_no_frame_cap_witness :
    0 = c5Closure.function.arity ∧
    VM.call c5State c5Closure 0 =
      (true,
        { c5State with frames := c5State.frames ++ [⟨c5Closure, 0, 1⟩] },
        none) :=
  ⟨rfl, c5_no_frame_cap c5State c5Closure 0 rfl⟩

/-- C6: with two initialized locals named `a` in scope (slot 0 at depth 1,
slot 1 at depth 2), `resolve_local` returns slot 0 — the OUTERMOST match
— because its loop (src/compiler.rs lines 845-853) never breaks and each
later (more outer) match overwrites `local_index`; the claim (and the
function's own doc comment about shadowing) requires the innermost,
slot 1. -/
theorem c6_resolve_local_returns_outermost :
    resolveLocal [⟨⟨.identifier, "a", 1⟩, 1⟩, ⟨⟨.identifier, "a", 2⟩, 2⟩]
      ⟨.identifier, "a", 3⟩ = (false, some 0) ∧
    (some 0 : Option Nat) ≠ some 1 :=
  ⟨rfl, by decide⟩

/-- C7: on the source `"// c\nx"` the first `scan_token` returns an ERROR
token for the comment's terminating newline: the `'/'` arm of
`skip_whitespace` (src/scanner.rs lines 139-147) returns unconditionally
after skipping the comment body, leaving the `'\n'` unconsumed, and
`scan_token`'s default arm (line 279) turns it into
`"Unexpcted character."`.  The following call then scans `x`. -/
theorem c7_comment_newline_yields_error_token :
    (scanToken (initScanner ("// c" ++ "\n" ++ "x"))).1 =
      ⟨.error, "Unexpcted character.", 1⟩ ∧
    (scanToken ((scanToken (initScanner ("// c" ++ "\n" ++ "x"))).2)).1 =
      ⟨.identifier, "x", 1⟩ := by
  constructor
  · rfl
  · rfl

/-- C8: for every history of chunk mutations the compiler can perform
(`Chunk::write` via the emit helpers, the in-place stores of
`patch_jump`, `add_constant`), the chunk built from `Chunk::default()`
satisfies `code.len() == lines.len()`. -/
theorem c8_code_lines_same_length (ops : List ChunkOp) :
    (applyChunkOps emptyChunk ops).code.length =
      (applyChunkOps emptyChunk ops).lines.length := by
  suffices h : ∀ c : Chunk, c.code.length = c.lines.length →
      (applyChunkOps c ops).code.length =
        (applyChunkOps c ops).lines.length from h emptyChunk rfl
  induction ops with
  | nil => intro c h; exact h
  | cons op rest ih =>
      intro c h
      exact ih (applyChunkOp c op) (applyChunkOp_length_eq c op h)

/-- C9: redeclaring a global is never an error: `declare_variable`
returns immediately at scope depth 0 (no duplicate check, no error, no
local added), and the `DefineGlobal` arm unconditionally inserts the
popped value into the globals map, overwriting any previous binding —
lookup afterwards yields the new value. -/
theorem c9_global_redefinition_never_errors
    (d : Int) (locals : List Local) (name : Token)
    (fr : List CallFrame) (st : List Value) (g : List (String × Value))
    (k : String) (v : Value)
    (hd : d = 0) :
    declareVariable d locals name = (false, locals) ∧
    execDefineGlobal ⟨fr, st ++ [v], g⟩ (.string k) =
      some ⟨fr, st, globalsInsert g k v⟩ ∧
    globalsGet (globalsInsert g k v) k = some v := by
  refine ⟨?_, ?_, globalsGet_insert g k v⟩
  · simp [declareVariable, hd]
  · simp [execDefineGlobal]

/-- C9 witness: redefining the pre-registered native `clock` with
`var clock = 3;` succeeds and overwrites the native binding. -/
theorem c9_witness :
    declareVariable 0 [] ⟨.identifier, "clock", 1⟩ = (false, []) ∧
    execDefineGlobal ⟨[], [.number 3], initialGlobals⟩ (.string "clock") =
      some ⟨[], [], globalsInsert initialGlobals "clock" (.number 3)⟩ ∧
    globalsGet (globalsInsert initialGlobals "clock" (.number 3)) "clock" =
      some (.number 3) := by
  have h := c9_global_redefinition_never_errors 0 [] ⟨.identifier, "clock", 1⟩
    [] [] initialGlobals "clock" (.number 3) rfl
  exact ⟨h.1, h.2.1, h.2.2⟩

/-- C10: calling a `NativeFunc` never checks the argument count: for
every `argc` (whatever the native's intended arity), `call_value` applies
the native to the top `argc` stack values, truncates callee and
arguments off the stack, pushes the result, and succeeds with no error
message — in particular the `"Expected N arguments but got M."` error,
raised only inside `VM::call`, is unreachable for native callees. -/
theorem c10_native_call_unchecked
    (impl : NativeId → List Value → Value) (s : VMState)
    (argCnt : Nat) (id : NativeId)
    (hlen : argCnt + 1 ≤ s.stack.length)
    (hget : s.stack.get? (s.stack.length - 1 - argCnt) =
      some (.nativeFunc id)) :
    callValue impl s argCnt =
      some (true,
        { s with stack :=
            s.stack.take (s.stack.length - argCnt - 1) ++
              [impl id (s.stack.drop (s.stack.length - argCnt))] },
        none) := by
  unfold callValue
  rw [if_neg (by omega), hget]

/-- C10 witness: the native `clock` (true arity 0) called with 2
arguments still succeeds: callee and both arguments are removed and the
native's result is pushed. -/
theorem c10_witness :
    2 + 1 ≤ 3 ∧
    callValue (fun _ _ => Value.number 7)
      ⟨[], [.nativeFunc .clock, .number 1, .number 2], []⟩ 2 =
      some (true, ⟨[], [.number 7], []⟩, none) := by
  have h := c10_native_call_unchecked (fun _ _ => Value.number 7)
    ⟨[], [.nativeFunc .clock, .number 1, .number 2], []⟩ 2 .clock
    (by decide) rfl
  exact ⟨by decide, h⟩

end Lox
